import Mathlib

/-!
Verification of the `BackofficeCourse` aggregate
(`src/Contexts/Backoffice/Courses/domain/BackofficeCourse.ts`).

The aggregate composes three validated value objects (`BackofficeCourseId`,
`BackofficeCourseName`, `BackofficeCourseDuration`) over the `AggregateRoot`
base, with two construction paths (`create`, `fromPrimitives`) and a
serialization method (`toPrimitives`).  The value-object classes and the
`AggregateRoot` base are not part of the supplied sources, so they are
modelled from the specification; the aggregate itself is translated directly
from the source file.  Methods that may touch the per-instance pending-event
list are embedded in state-passing style: they return the (possibly updated)
aggregate alongside their result.
-/

/-- Modelled from the spec: the single error kind, carrying the offending
field name and a human-readable rule description (the shared
`ValidationError` class is not among the supplied sources). -/
structure ValidationError where
  fieldName : String
  rule : String
deriving DecidableEq

/-- Modelled from the spec: a domain event, a record of a significant fact,
holding at least an event name and the identifier of the aggregate it
references (the domain-event base class is not among the supplied sources). -/
structure DomainEvent where
  eventName : String
  aggregateId : String
deriving DecidableEq

/-- Modelled from the spec: the configured maximum length for a course name
(the spec requires a bounded length without fixing the bound). -/
def nameMaxLength : Nat := 255

/-- Modelled from the spec: `BackofficeCourseId` is an immutable wrapper of
a string identifier, exposing the raw primitive as `.value`
(`BackofficeCourseId.ts` is not among the supplied sources). -/
structure BackofficeCourseId where
  value : String
deriving DecidableEq

/-- Modelled from the spec: `BackofficeCourseName` is an immutable wrapper of
a display string, exposing the raw primitive as `.value`
(`BackofficeCourseName.ts` is not among the supplied sources). -/
structure BackofficeCourseName where
  value : String
deriving DecidableEq

/-- Modelled from the spec: `BackofficeCourseDuration` is an immutable
wrapper of a duration token, exposing the raw primitive as `.value`
(`BackofficeCourseDuration.ts` is not among the supplied sources). -/
structure BackofficeCourseDuration where
  value : String
deriving DecidableEq

/-- Modelled from the spec: the `Id` validation rule — the input must be
non-empty (the precise identifier format is a configuration decision the
spec leaves open, so only the guaranteed non-emptiness check is modelled). -/
def validBackofficeCourseId (s : String) : Bool :=
  !s.isEmpty

/-- Modelled from the spec: the `Name` validation rule — non-empty after
trimming (equivalently, not every character is whitespace) and within the
configured maximum length. -/
def validBackofficeCourseName (s : String) : Bool :=
  !s.data.all Char.isWhitespace && decide (s.length ≤ nameMaxLength)

/-- Modelled from the spec: the `Duration` validation rule — at minimum the
input must be non-empty (membership in an enumerated set is an open question
in the spec, so only the guaranteed non-emptiness check is modelled). -/
def validBackofficeCourseDuration (s : String) : Bool :=
  !s.isEmpty

/-- Modelled from the spec: the `BackofficeCourseId` constructor — returns a
validated instance or fails with a `ValidationError` naming the field. -/
def BackofficeCourseId.build (s : String) :
    Except ValidationError BackofficeCourseId :=
  if validBackofficeCourseId s then Except.ok ⟨s⟩
  else Except.error ⟨"id", "must be a non-empty identifier"⟩

/-- Modelled from the spec: the `BackofficeCourseName` constructor — returns
a validated instance or fails with a `ValidationError` naming the field. -/
def BackofficeCourseName.build (s : String) :
    Except ValidationError BackofficeCourseName :=
  if validBackofficeCourseName s then Except.ok ⟨s⟩
  else Except.error ⟨"name", "must be non-empty after trimming and within the maximum length"⟩

/-- Modelled from the spec: the `BackofficeCourseDuration` constructor —
returns a validated instance or fails with a `ValidationError` naming the
field. -/
def BackofficeCourseDuration.build (s : String) :
    Except ValidationError BackofficeCourseDuration :=
  if validBackofficeCourseDuration s then Except.ok ⟨s⟩
  else Except.error ⟨"duration", "must be a non-empty duration token"⟩

/-- The `BackofficeCourse` aggregate: the three readonly value-object fields
declared in the source class, plus the per-instance pending domain-event
list inherited from the `AggregateRoot` base (the list itself is modelled
from the spec, since `AggregateRoot.ts` is not among the supplied sources). -/
structure BackofficeCourse where
  id : BackofficeCourseId
  name : BackofficeCourseName
  duration : BackofficeCourseDuration
  domainEvents : List DomainEvent
deriving DecidableEq

/-- The `BackofficeCourse` class constructor: `super()` initialises the
pending-event list to empty (modelled from the spec for the
`AggregateRoot` base), then the three fields are assigned from the
arguments. -/
def BackofficeCourse.make (i : BackofficeCourseId) (n : BackofficeCourseName)
    (d : BackofficeCourseDuration) : BackofficeCourse :=
  ⟨i, n, d, []⟩

/-- Modelled from the spec: `AggregateRoot.record` appends an event to the
instance's pending list (side effect only), returning the updated
instance. -/
def BackofficeCourse.recordEvent (e : DomainEvent) (c : BackofficeCourse) :
    BackofficeCourse :=
  { c with domainEvents := c.domainEvents ++ [e] }

/-- Modelled from the spec: `AggregateRoot.pullEvents` returns the pending
list and clears it, returning the drained instance alongside. -/
def BackofficeCourse.pullEvents (c : BackofficeCourse) :
    List DomainEvent × BackofficeCourse :=
  (c.domainEvents, { c with domainEvents := [] })

/-- `BackofficeCourse.create`, translated from the source: it constructs a
new instance from the already-validated value objects and returns it.  The
source body performs no validation and, as written, records no domain
event. -/
def BackofficeCourse.create (i : BackofficeCourseId) (n : BackofficeCourseName)
    (d : BackofficeCourseDuration) : BackofficeCourse :=
  BackofficeCourse.make i n d

/-- The plain structural record used at the persistence boundary, translated
from the source parameter type of `fromPrimitives`. -/
structure PlainRecord where
  id : String
  name : String
  duration : String
deriving DecidableEq

/-- `BackofficeCourse.fromPrimitives`, translated from the source: it builds
the three value objects from the record's raw fields — in argument order
`id`, `name`, `duration`, each construction able to fail with a
`ValidationError` — and passes them to the class constructor.  No domain
event is recorded. -/
def BackofficeCourse.fromPrimitives (plainData : PlainRecord) :
    Except ValidationError BackofficeCourse := do
  let i ← BackofficeCourseId.build plainData.id
  let n ← BackofficeCourseName.build plainData.name
  let d ← BackofficeCourseDuration.build plainData.duration
  pure (BackofficeCourse.make i n d)

/-- `BackofficeCourse.toPrimitives`, translated from the source: it reads
the three value objects' raw primitives into the plain record shape. -/
def BackofficeCourse.toPrimitives (c : BackofficeCourse) : PlainRecord :=
  ⟨c.id.value, c.name.value, c.duration.value⟩

/-- The state-passing view of the `toPrimitives` method call: the source
body only reads fields and assigns nothing, so the instance after the call
is the instance before it. -/
def BackofficeCourse.toPrimitivesRun (c : BackofficeCourse) :
    PlainRecord × BackofficeCourse :=
  (BackofficeCourse.toPrimitives c, c)

/-- A successful `Id` construction wraps exactly the raw input string. -/
theorem idBuild_ok_value {s : String} {i : BackofficeCourseId}
    (h : BackofficeCourseId.build s = Except.ok i) : i.value = s := by
  unfold BackofficeCourseId.build at h
  split at h
  · cases h; rfl
  · cases h

/-- A successful `Name` construction wraps exactly the raw input string. -/
theorem nameBuild_ok_value {s : String} {n : BackofficeCourseName}
    (h : BackofficeCourseName.build s = Except.ok n) : n.value = s := by
  unfold BackofficeCourseName.build at h
  split at h
  · cases h; rfl
  · cases h

/-- A successful `Duration` construction wraps exactly the raw input string. -/
theorem durationBuild_ok_value {s : String} {d : BackofficeCourseDuration}
    (h : BackofficeCourseDuration.build s = Except.ok d) : d.value = s := by
  unfold BackofficeCourseDuration.build at h
  split at h
  · cases h; rfl
  · cases h

/-- On a valid raw string the `Id` constructor succeeds with the wrapper. -/
theorem idBuild_ok_of_valid {s : String}
    (h : validBackofficeCourseId s = true) :
    BackofficeCourseId.build s = Except.ok ⟨s⟩ := by
  unfold BackofficeCourseId.build
  rw [if_pos h]

/-- On a valid raw string the `Name` constructor succeeds with the wrapper. -/
theorem nameBuild_ok_of_valid {s : String}
    (h : validBackofficeCourseName s = true) :
    BackofficeCourseName.build s = Except.ok ⟨s⟩ := by
  unfold BackofficeCourseName.build
  rw [if_pos h]

/-- On a valid raw string the `Duration` constructor succeeds with the wrapper. -/
theorem durationBuild_ok_of_valid {s : String}
    (h : validBackofficeCourseDuration s = true) :
    BackofficeCourseDuration.build s = Except.ok ⟨s⟩ := by
  unfold BackofficeCourseDuration.build
  rw [if_pos h]

/-- On an invalid raw string the `Id` constructor fails with the id error. -/
theorem idBuild_error_of_invalid {s : String}
    (h : validBackofficeCourseId s = false) :
    BackofficeCourseId.build s =
      Except.error ⟨"id", "must be a non-empty identifier"⟩ := by
  unfold BackofficeCourseId.build
  rw [if_neg (by simp [h])]

/-- On an invalid raw string the `Name` constructor fails with the name error. -/
theorem nameBuild_error_of_invalid {s : String}
    (h : validBackofficeCourseName s = false) :
    BackofficeCourseName.build s =
      Except.error ⟨"name", "must be non-empty after trimming and within the maximum length"⟩ := by
  unfold BackofficeCourseName.build
  rw [if_neg (by simp [h])]

/-- On an invalid raw string the `Duration` constructor fails with the
duration error. -/
theorem durationBuild_error_of_invalid {s : String}
    (h : validBackofficeCourseDuration s = false) :
    BackofficeCourseDuration.build s =
      Except.error ⟨"duration", "must be a non-empty duration token"⟩ := by
  unfold BackofficeCourseDuration.build
  rw [if_neg (by simp [h])]

/-- Unfolding of the monadic body of `fromPrimitives` into explicit
`Except.bind` applications. -/
theorem fromPrimitives_eq (p : PlainRecord) :
    BackofficeCourse.fromPrimitives p =
      (BackofficeCourseId.build p.id).bind fun i =>
        (BackofficeCourseName.build p.name).bind fun n =>
          (BackofficeCourseDuration.build p.duration).bind fun d =>
            Except.ok (BackofficeCourse.make i n d) := rfl

/-- Inversion for a successful `fromPrimitives`: all three value-object
constructions succeeded and the result is the class constructor applied to
them. -/
theorem fromPrimitives_ok_elim {p : PlainRecord} {c : BackofficeCourse}
    (h : BackofficeCourse.fromPrimitives p = Except.ok c) :
    ∃ i n d, BackofficeCourseId.build p.id = Except.ok i ∧
      BackofficeCourseName.build p.name = Except.ok n ∧
      BackofficeCourseDuration.build p.duration = Except.ok d ∧
      c = BackofficeCourse.make i n d := by
  rw [fromPrimitives_eq] at h
  cases hi : BackofficeCourseId.build p.id with
  | error e => rw [hi] at h; simp [Except.bind] at h
  | ok i =>
    rw [hi] at h
    cases hn : BackofficeCourseName.build p.name with
    | error e => rw [hn] at h; simp [Except.bind] at h
    | ok n =>
      rw [hn] at h
      cases hd : BackofficeCourseDuration.build p.duration with
      | error e => rw [hd] at h; simp [Except.bind] at h
      | ok d =>
        rw [hd] at h
        simp [Except.bind] at h
        exact ⟨i, n, d, rfl, rfl, rfl, h.symm⟩

/-- When all three fields validate, `fromPrimitives` succeeds with the
aggregate wrapping the raw fields. -/
theorem fromPrimitives_ok_of_valid {p : PlainRecord}
    (h1 : validBackofficeCourseId p.id = true)
    (h2 : validBackofficeCourseName p.name = true)
    (h3 : validBackofficeCourseDuration p.duration = true) :
    BackofficeCourse.fromPrimitives p =
      Except.ok (BackofficeCourse.make ⟨p.id⟩ ⟨p.name⟩ ⟨p.duration⟩) := by
  rw [fromPrimitives_eq, idBuild_ok_of_valid h1,
    nameBuild_ok_of_valid h2,
    durationBuild_ok_of_valid h3]
  rfl

/-- C1: the claim fails on the code.  `BackofficeCourse.create` as written
records no "course created" domain event, so the first `pullEvents` on a
freshly created aggregate already returns the empty list rather than a
one-event list, here evaluated at the spec's own example input
(id "abc-123", name "Rust Basics", duration "4weeks"). -/
theorem create_pullEvents_empty_concrete :
    (BackofficeCourse.pullEvents
      (BackofficeCourse.create ⟨"abc-123"⟩ ⟨"Rust Basics"⟩ ⟨"4weeks"⟩)).1 = [] := rfl

/-- C2: any aggregate returned by `fromPrimitives` carries zero pending
domain events — `pullEvents` on it returns the empty list. -/
theorem fromPrimitives_pullEvents_empty {p : PlainRecord} {c : BackofficeCourse}
    (h : BackofficeCourse.fromPrimitives p = Except.ok c) :
    (BackofficeCourse.pullEvents c).1 = [] := by
  obtain ⟨i, n, d, _, _, _, hc⟩ := fromPrimitives_ok_elim h
  rw [hc]; rfl

/-- Witness for C2 at the concrete record
(id "abc-123", name "Rust Basics", duration "4weeks"). -/
theorem fromPrimitives_pullEvents_empty_witness :
    (BackofficeCourse.pullEvents
      (BackofficeCourse.make ⟨"abc-123"⟩ ⟨"Rust Basics"⟩ ⟨"4weeks"⟩)).1 = [] :=
  fromPrimitives_pullEvents_empty
    (p := ⟨"abc-123", "Rust Basics", "4weeks"⟩) rfl

/-- C3: for raw strings accepted by the three value-object constructors,
serialising the aggregate built by `create` over the constructed value
objects returns exactly the raw strings, unchanged. -/
theorem create_toPrimitives_id {a b c : String}
    {i : BackofficeCourseId} {n : BackofficeCourseName} {d : BackofficeCourseDuration}
    (ha : BackofficeCourseId.build a = Except.ok i)
    (hb : BackofficeCourseName.build b = Except.ok n)
    (hc : BackofficeCourseDuration.build c = Except.ok d) :
    BackofficeCourse.toPrimitives (BackofficeCourse.create i n d) = ⟨a, b, c⟩ := by
  have h1 := idBuild_ok_value ha
  have h2 := nameBuild_ok_value hb
  have h3 := durationBuild_ok_value hc
  simp [BackofficeCourse.toPrimitives, BackofficeCourse.create,
    BackofficeCourse.make, h1, h2, h3]

/-- Witness for C3 at the spec's example input. -/
theorem create_toPrimitives_id_witness :
    BackofficeCourse.toPrimitives
      (BackofficeCourse.create ⟨"abc-123"⟩ ⟨"Rust Basics"⟩ ⟨"4weeks"⟩) =
      ⟨"abc-123", "Rust Basics", "4weeks"⟩ :=
  create_toPrimitives_id rfl rfl rfl

/-- C4: full round-trip — on any record accepted by `fromPrimitives`,
serialising the resulting aggregate returns the original record. -/
theorem fromPrimitives_toPrimitives_id {p : PlainRecord} {c : BackofficeCourse}
    (h : BackofficeCourse.fromPrimitives p = Except.ok c) :
    BackofficeCourse.toPrimitives c = p := by
  obtain ⟨i, n, d, hi, hn, hd, hc⟩ := fromPrimitives_ok_elim h
  have h1 := idBuild_ok_value hi
  have h2 := nameBuild_ok_value hn
  have h3 := durationBuild_ok_value hd
  rw [hc]
  simp [BackofficeCourse.toPrimitives, BackofficeCourse.make, h1, h2, h3]

/-- Witness for C4 at a concrete valid record. -/
theorem fromPrimitives_toPrimitives_id_witness :
    BackofficeCourse.toPrimitives
      (BackofficeCourse.make ⟨"course-1"⟩ ⟨"Intro to Systems"⟩ ⟨"8weeks"⟩) =
      ⟨"course-1", "Intro to Systems", "8weeks"⟩ :=
  fromPrimitives_toPrimitives_id
    (p := ⟨"course-1", "Intro to Systems", "8weeks"⟩) rfl

/-- C5: `fromPrimitives` fails with a `ValidationError` exactly when at
least one field is rejected by its value-object validation, and returns an
aggregate whenever every field is accepted. -/
theorem fromPrimitives_error_iff (p : PlainRecord) :
    ((∃ e, BackofficeCourse.fromPrimitives p = Except.error e) ↔
      (validBackofficeCourseId p.id = false ∨
        validBackofficeCourseName p.name = false ∨
        validBackofficeCourseDuration p.duration = false)) ∧
    ((validBackofficeCourseId p.id = true ∧ validBackofficeCourseName p.name = true ∧
        validBackofficeCourseDuration p.duration = true) →
      ∃ c, BackofficeCourse.fromPrimitives p = Except.ok c) := by
  cases h1 : validBackofficeCourseId p.id with
  | false =>
    refine ⟨⟨fun _ => Or.inl rfl, fun _ =>
      ⟨⟨"id", "must be a non-empty identifier"⟩, ?_⟩⟩, fun hall => ?_⟩
    · rw [fromPrimitives_eq, idBuild_error_of_invalid h1]; rfl
    · exact absurd hall.1 (by decide)
  | true =>
    cases h2 : validBackofficeCourseName p.name with
    | false =>
      refine ⟨⟨fun _ => Or.inr (Or.inl rfl), fun _ =>
        ⟨⟨"name", "must be non-empty after trimming and within the maximum length"⟩, ?_⟩⟩,
        fun hall => ?_⟩
      · rw [fromPrimitives_eq, idBuild_ok_of_valid h1,
          nameBuild_error_of_invalid h2]; rfl
      · exact absurd hall.2.1 (by decide)
    | true =>
      cases h3 : validBackofficeCourseDuration p.duration with
      | false =>
        refine ⟨⟨fun _ => Or.inr (Or.inr rfl), fun _ =>
          ⟨⟨"duration", "must be a non-empty duration token"⟩, ?_⟩⟩, fun hall => ?_⟩
        · rw [fromPrimitives_eq, idBuild_ok_of_valid h1,
            nameBuild_ok_of_valid h2,
            durationBuild_error_of_invalid h3]; rfl
        · exact absurd hall.2.2 (by decide)
      | true =>
        refine ⟨⟨?_, ?_⟩, fun _ => ⟨_, fromPrimitives_ok_of_valid h1 h2 h3⟩⟩
        · rintro ⟨e, he⟩
          rw [fromPrimitives_ok_of_valid h1 h2 h3] at he
          cases he
        · rintro (h | h | h) <;> exact absurd h (by decide)

/-- C6: `create` is a total function over already-constructed value objects:
it performs no validation and always returns the aggregate whose fields are
exactly its arguments. -/
theorem create_total_and_unvalidated (i : BackofficeCourseId)
    (n : BackofficeCourseName) (d : BackofficeCourseDuration) :
    BackofficeCourse.create i n d = BackofficeCourse.make i n d ∧
    (BackofficeCourse.create i n d).id = i ∧
    (BackofficeCourse.create i n d).name = n ∧
    (BackofficeCourse.create i n d).duration = d :=
  ⟨rfl, rfl, rfl, rfl⟩

/-- C7: immutability — no operation of the core reassigns the id, name or
duration fields of an aggregate: `recordEvent`, `pullEvents` and the
`toPrimitives` method call all preserve the field values fixed at
construction. -/
theorem course_fields_never_reassigned (c : BackofficeCourse) (e : DomainEvent) :
    ((BackofficeCourse.recordEvent e c).id = c.id ∧
      (BackofficeCourse.recordEvent e c).name = c.name ∧
      (BackofficeCourse.recordEvent e c).duration = c.duration) ∧
    ((BackofficeCourse.pullEvents c).2.id = c.id ∧
      (BackofficeCourse.pullEvents c).2.name = c.name ∧
      (BackofficeCourse.pullEvents c).2.duration = c.duration) ∧
    (BackofficeCourse.toPrimitivesRun c).2 = c :=
  ⟨⟨rfl, rfl, rfl⟩, ⟨rfl, rfl, rfl⟩, rfl⟩

/-- C8: `toPrimitives` is total and side-effect-free — it returns the record
of the three raw field values, leaves the aggregate (fields and pending-event
list alike) unchanged, and repeated calls return equal records. -/
theorem toPrimitives_pure_total (c : BackofficeCourse) :
    (BackofficeCourse.toPrimitivesRun c).1 =
      ⟨c.id.value, c.name.value, c.duration.value⟩ ∧
    (BackofficeCourse.toPrimitivesRun c).2 = c ∧
    (BackofficeCourse.pullEvents (BackofficeCourse.toPrimitivesRun c).2).1 =
      (BackofficeCourse.pullEvents c).1 ∧
    (BackofficeCourse.toPrimitivesRun (BackofficeCourse.toPrimitivesRun c).2).1 =
      (BackofficeCourse.toPrimitivesRun c).1 :=
  ⟨rfl, rfl, rfl, rfl⟩

/-- C9: for raw strings accepted by the three value-object constructors, the
aggregate from `fromPrimitives` has the same id, name and duration fields as
the one from `create` over the constructed value objects, and in particular
the same `toPrimitives` result. -/
theorem create_fromPrimitives_agree {a b c : String}
    {i : BackofficeCourseId} {n : BackofficeCourseName} {d : BackofficeCourseDuration}
    (ha : BackofficeCourseId.build a = Except.ok i)
    (hb : BackofficeCourseName.build b = Except.ok n)
    (hc : BackofficeCourseDuration.build c = Except.ok d) :
    ∃ co, BackofficeCourse.fromPrimitives ⟨a, b, c⟩ = Except.ok co ∧
      co.id = (BackofficeCourse.create i n d).id ∧
      co.name = (BackofficeCourse.create i n d).name ∧
      co.duration = (BackofficeCourse.create i n d).duration ∧
      BackofficeCourse.toPrimitives co =
        BackofficeCourse.toPrimitives (BackofficeCourse.create i n d) := by
  refine ⟨BackofficeCourse.make i n d, ?_, rfl, rfl, rfl, rfl⟩
  have hbody : BackofficeCourse.fromPrimitives ⟨a, b, c⟩ =
      (BackofficeCourseId.build a).bind fun i =>
        (BackofficeCourseName.build b).bind fun n =>
          (BackofficeCourseDuration.build c).bind fun d =>
            Except.ok (BackofficeCourse.make i n d) := rfl
  rw [hbody, ha, hb, hc]
  rfl

/-- Witness for C9 at a concrete valid raw-string triple. -/
theorem create_fromPrimitives_agree_witness :
    ∃ co, BackofficeCourse.fromPrimitives ⟨"id-42", "Clean Architecture", "6weeks"⟩ =
        Except.ok co ∧
      co.id = (BackofficeCourse.create ⟨"id-42"⟩ ⟨"Clean Architecture"⟩ ⟨"6weeks"⟩).id ∧
      co.name = (BackofficeCourse.create ⟨"id-42"⟩ ⟨"Clean Architecture"⟩ ⟨"6weeks"⟩).name ∧
      co.duration =
        (BackofficeCourse.create ⟨"id-42"⟩ ⟨"Clean Architecture"⟩ ⟨"6weeks"⟩).duration ∧
      BackofficeCourse.toPrimitives co =
        BackofficeCourse.toPrimitives
          (BackofficeCourse.create ⟨"id-42"⟩ ⟨"Clean Architecture"⟩ ⟨"6weeks"⟩) :=
  create_fromPrimitives_agree rfl rfl rfl

/-- C10: `fromPrimitives` validates in the fixed order id, name, duration:
whichever constructor fails first determines the `ValidationError` of the
whole call, regardless of the later fields. -/
theorem fromPrimitives_validation_order (p : PlainRecord) :
    (∀ e, BackofficeCourseId.build p.id = Except.error e →
      BackofficeCourse.fromPrimitives p = Except.error e) ∧
    (∀ i e, BackofficeCourseId.build p.id = Except.ok i →
      BackofficeCourseName.build p.name = Except.error e →
      BackofficeCourse.fromPrimitives p = Except.error e) ∧
    (∀ i n e, BackofficeCourseId.build p.id = Except.ok i →
      BackofficeCourseName.build p.name = Except.ok n →
      BackofficeCourseDuration.build p.duration = Except.error e →
      BackofficeCourse.fromPrimitives p = Except.error e) := by
  refine ⟨fun e he => ?_, fun i e hi he => ?_, fun i n e hi hn he => ?_⟩
  · rw [fromPrimitives_eq, he]; rfl
  · rw [fromPrimitives_eq, hi, he]; rfl
  · rw [fromPrimitives_eq, hi, hn, he]; rfl

/-- Witness for C10: on a record whose three fields are all invalid, the
error reported is the one for the id, the earliest field in the order. -/
theorem fromPrimitives_validation_order_witness :
    BackofficeCourse.fromPrimitives ⟨"", "", ""⟩ =
      Except.error ⟨"id", "must be a non-empty identifier"⟩ :=
  (fromPrimitives_validation_order ⟨"", "", ""⟩).1
    ⟨"id", "must be a non-empty identifier"⟩ rfl

/-- Witness for C5: on a concrete record with all fields valid,
`fromPrimitives` returns an aggregate. -/
theorem fromPrimitives_error_iff_witness :
    ∃ c, BackofficeCourse.fromPrimitives ⟨"abc-123", "Intro to Systems", "4weeks"⟩ =
      Except.ok c :=
  (fromPrimitives_error_iff ⟨"abc-123", "Intro to Systems", "4weeks"⟩).2 (by decide)
